import Mathlib

/-!
Shallow embedding of the business-card CRM service (src/app.py).

The service exposes a create handler (process_business_card), a list handler
(get_cards) and a get-by-id handler (get_card) over one relational table.
The relational store is modelled as a list of rows plus the two counters the
store itself advances: the next surrogate id and a clock supplying the dt
(creation timestamp) column, both strictly increasing across inserts.
Store-client failures (connection, statement execution, commit) are injected
through a DbFail parameter, and every handler additionally returns the trace
of connection events (opened, committed, closed) it performed, so that the
resource-release behaviour of each exit path is visible in the model.
-/

namespace CardService

/-- Python str.strip with no arguments: remove leading and trailing whitespace
characters (modelled by Char.isWhitespace). -/
def pyStrip (s : String) : String :=
  String.mk (((s.data.dropWhile Char.isWhitespace).reverse.dropWhile Char.isWhitespace).reverse)

/-- A decoded JSON or form value bound to one of the eight request fields.
Form decoding always yields strings; a JSON body may bind a field to a
non-string value, on which the code raises AttributeError at the strip call. -/
inductive JVal where
  | jstr (s : String)
  | jnonstr
deriving DecidableEq

/-- The create request body: each of the eight fields is absent or bound to a
decoded value. -/
structure Request where
  name : Option JVal
  email : Option JVal
  phone : Option JVal
  company : Option JVal
  website : Option JVal
  title : Option JVal
  address : Option JVal
  notes : Option JVal
deriving DecidableEq

/-- Line 78 and friends of app.py: data.get(field, default empty string) followed
by .strip(). An absent field defaults to the empty string, a string value is
stripped, and a non-string value raises AttributeError. -/
def getStrip : Option JVal → Except String String
  | none => Except.ok ""
  | some (JVal.jstr s) => Except.ok (pyStrip s)
  | some JVal.jnonstr => Except.error "object has no attribute strip"

/-- True when the field is absent or bound to a string, so that the strip call
cannot raise. -/
def isStrOrAbsent : Option JVal → Bool
  | some JVal.jnonstr => false
  | _ => true

/-- A request is well typed when each of its eight fields is absent or a string
(the input domain the specification describes: optional string fields). -/
def Request.wellTyped (r : Request) : Bool :=
  isStrOrAbsent r.name && isStrOrAbsent r.email && isStrOrAbsent r.phone &&
    isStrOrAbsent r.company && isStrOrAbsent r.website && isStrOrAbsent r.title &&
    isStrOrAbsent r.address && isStrOrAbsent r.notes

/-- The trimmed string a well-typed field contributes: empty when absent,
otherwise the stripped string. -/
def strippedField : Option JVal → String
  | some (JVal.jstr s) => pyStrip s
  | _ => ""

/-- One persisted row of the business_cards table. -/
structure Row where
  id : Nat
  full_name : String
  email : String
  phone : String
  company_name : String
  website : String
  notes : String
  dt : Nat
deriving DecidableEq

/-- The relational store: the table rows in insertion order, the next id the
store will assign, and the clock supplying the next dt value. -/
structure Store where
  rows : List Row
  nextId : Nat
  clock : Nat
deriving DecidableEq

/-- True when consecutive rows have strictly increasing ids and strictly
increasing creation timestamps. -/
def rowsOrdered : List Row → Bool
  | a :: b :: rest => (decide (a.id < b.id) && decide (a.dt < b.dt)) && rowsOrdered (b :: rest)
  | _ => true

/-- Store invariant: ids and creation timestamps strictly increase in insertion
order and stay below the counters the store will assign next. -/
def Store.WF (st : Store) : Prop :=
  rowsOrdered st.rows = true ∧ ∀ r ∈ st.rows, r.id < st.nextId ∧ r.dt < st.clock

instance (st : Store) : Decidable st.WF :=
  inferInstanceAs (Decidable (rowsOrdered st.rows = true ∧
    ∀ r ∈ st.rows, r.id < st.nextId ∧ r.dt < st.clock))

/-- Connection events a handler performs, in order. -/
inductive Event where
  | opened
  | committed
  | closed
deriving DecidableEq

/-- Failure injection for the store client: the connection attempt, the statement
execution, or the commit may raise with the given message. -/
inductive DbFail where
  | ok
  | connectFail (msg : String)
  | execFail (msg : String)
  | commitFail (msg : String)
deriving DecidableEq

/-- The echoed data object of a successful create response: exactly the eight
input fields, trimmed. -/
structure CreateData where
  name : String
  email : String
  phone : String
  company : String
  website : String
  title : String
  address : String
  notes : String
deriving DecidableEq

/-- Response of the create handler. -/
inductive CreateResp where
  | validationError (error : String)
  | success (message : String) (id : Nat) (data : CreateData)
  | saveFailed (error : String)
deriving DecidableEq

/-- HTTP status attached to each create response shape. -/
def CreateResp.statusCode : CreateResp → Nat
  | CreateResp.validationError _ => 400
  | CreateResp.success _ _ _ => 200
  | CreateResp.saveFailed _ => 500

/-- Response of the list handler. -/
inductive ListResp where
  | success (cards : List Row) (count : Nat)
  | fetchFailed (error : String)
deriving DecidableEq

/-- HTTP status attached to each list response shape. -/
def ListResp.statusCode : ListResp → Nat
  | ListResp.success _ _ => 200
  | ListResp.fetchFailed _ => 500

/-- Response of the get-by-id handler. -/
inductive GetResp where
  | found (card : Row)
  | notFound (error : String)
  | fetchFailed (error : String)
deriving DecidableEq

/-- HTTP status attached to each get-by-id response shape. -/
def GetResp.statusCode : GetResp → Nat
  | GetResp.found _ => 200
  | GetResp.notFound _ => 404
  | GetResp.fetchFailed _ => 500

/-- Lines 78-85 of app.py: extract and strip the eight fields in source order;
the first non-string value raises, aborting the handler body. -/
def extractFields (req : Request) :
    Except String (String × String × String × String × String × String × String × String) :=
  match getStrip req.name with
  | Except.error e => Except.error e
  | Except.ok name =>
    match getStrip req.email with
    | Except.error e => Except.error e
    | Except.ok email =>
      match getStrip req.phone with
      | Except.error e => Except.error e
      | Except.ok phone =>
        match getStrip req.company with
        | Except.error e => Except.error e
        | Except.ok company =>
          match getStrip req.website with
          | Except.error e => Except.error e
          | Except.ok website =>
            match getStrip req.title with
            | Except.error e => Except.error e
            | Except.ok title =>
              match getStrip req.address with
              | Except.error e => Except.error e
              | Except.ok address =>
                match getStrip req.notes with
                | Except.error e => Except.error e
                | Except.ok additional_notes =>
                  Except.ok (name, email, phone, company, website, title, address,
                    additional_notes)

/-- Lines 93-102 of app.py: combine title, address and the free-form notes into
the stored notes value, one labelled line per non-empty sub-field, joined by
newlines. -/
def combineNotes (title address additional_notes : String) : String :=
  String.intercalate "\n"
    ((if title ≠ "" then ["Title: " ++ title] else []) ++
     (if address ≠ "" then ["Address: " ++ address] else []) ++
     (if additional_notes ≠ "" then ["Notes: " ++ additional_notes] else []))

/-- Lines 108-125 of app.py, store side: the single INSERT returning the new id.
The store appends the row, assigns the next id and the current clock value as
dt, and advances both counters. -/
def dbInsert (st : Store) (full_name email phone company_name website notes : String) :
    Store × Nat :=
  ({ rows := st.rows ++ [{ id := st.nextId, full_name := full_name, email := email,
                           phone := phone, company_name := company_name, website := website,
                           notes := notes, dt := st.clock }],
     nextId := st.nextId + 1, clock := st.clock + 1 }, st.nextId)

/-- Lines 65-151 of app.py: the create handler. Returns the response, the store
after the request, and the trace of connection events in order. An exception
anywhere in the body is caught by the handler and turned into the 500
Save failed response; note that an exception raised after the connection was
acquired (execution or commit failure) leaves the trace without a closed
event, because no finally block closes the connection on that path. -/
def process_business_card (req : Request) (fail : DbFail) (st : Store) :
    CreateResp × Store × List Event :=
  match extractFields req with
  | Except.error e => (CreateResp.saveFailed ("Save failed: " ++ e), st, [])
  | Except.ok (name, email, phone, company, website, title, address, additional_notes) =>
    if name = "" ∧ email = "" ∧ phone = "" ∧ company = "" then
      (CreateResp.validationError "At least one of name, email, phone, or company is required",
        st, [])
    else
      let notes := combineNotes title address additional_notes
      match fail with
      | DbFail.connectFail e => (CreateResp.saveFailed ("Save failed: " ++ e), st, [])
      | DbFail.execFail e => (CreateResp.saveFailed ("Save failed: " ++ e), st, [Event.opened])
      | DbFail.commitFail e => (CreateResp.saveFailed ("Save failed: " ++ e), st, [Event.opened])
      | DbFail.ok =>
        match dbInsert st name email phone company website notes with
        | (st2, card_id) =>
          (CreateResp.success "Business card saved successfully" card_id
            { name := name, email := email, phone := phone, company := company,
              website := website, title := title, address := address,
              notes := additional_notes },
            st2, [Event.opened, Event.committed, Event.closed])

/-- Insert a row into a list already sorted by dt descending, keeping it sorted. -/
def insertDesc (r : Row) : List Row → List Row
  | [] => [r]
  | x :: xs => if r.dt ≤ x.dt then x :: insertDesc r xs else r :: x :: xs

/-- ORDER BY dt DESC of lines 160-164: sort the table rows by creation
timestamp, most recent first. -/
def sortByDtDesc : List Row → List Row
  | [] => []
  | r :: rs => insertDesc r (sortByDtDesc rs)

/-- Lines 153-177 of app.py: the list handler. -/
def get_cards (fail : DbFail) (st : Store) : ListResp × Store × List Event :=
  match fail with
  | DbFail.connectFail e => (ListResp.fetchFailed ("Failed to fetch cards: " ++ e), st, [])
  | DbFail.execFail e => (ListResp.fetchFailed ("Failed to fetch cards: " ++ e), st,
      [Event.opened])
  | _ =>
    let cards := sortByDtDesc st.rows
    (ListResp.success cards cards.length, st, [Event.opened, Event.closed])

/-- Lines 179-201 of app.py: the get-by-id handler. The SELECT takes the first
row matching the id; the connection is closed before the found check, so the
404 path also closes it. -/
def get_card (card_id : Nat) (fail : DbFail) (st : Store) : GetResp × Store × List Event :=
  match fail with
  | DbFail.connectFail e => (GetResp.fetchFailed ("Failed to fetch card: " ++ e), st, [])
  | DbFail.execFail e => (GetResp.fetchFailed ("Failed to fetch card: " ++ e), st,
      [Event.opened])
  | _ =>
    match List.find? (fun r => r.id == card_id) st.rows with
    | none => (GetResp.notFound "Card not found", st, [Event.opened, Event.closed])
    | some card => (GetResp.found card, st, [Event.opened, Event.closed])

/-- The empty create request: no field present. -/
def reqEmpty : Request :=
  { name := none, email := none, phone := none, company := none,
    website := none, title := none, address := none, notes := none }

/-- The create request of the specification scenario (John Doe at Tech Corp). -/
def reqJohn : Request :=
  { name := some (JVal.jstr "John Doe"), email := some (JVal.jstr "john@techcorp.com"),
    phone := some (JVal.jstr "5551234567"), company := some (JVal.jstr "Tech Corp"),
    website := some (JVal.jstr "techcorp.com"), title := some (JVal.jstr "Software Engineer"),
    address := some (JVal.jstr "123 Main St, City, State"),
    notes := some (JVal.jstr "Met at tech conference 2024") }

/-- A request whose only present field is a name, bound to a non-string value. -/
def reqBadName : Request :=
  { name := some JVal.jnonstr, email := none, phone := none, company := none,
    website := none, title := none, address := none, notes := none }

/-- An empty store whose next id is 1. -/
def store0 : Store := { rows := [], nextId := 1, clock := 0 }

/-- A store holding one row with id 1. -/
def store1 : Store :=
  { rows := [{ id := 1, full_name := "John Doe", email := "john@techcorp.com",
               phone := "5551234567", company_name := "Tech Corp", website := "techcorp.com",
               notes := "Title: Software Engineer", dt := 0 }],
    nextId := 2, clock := 1 }

theorem getStrip_of_isStr (v : Option JVal) (h : isStrOrAbsent v = true) :
    getStrip v = Except.ok (strippedField v) := by
  cases v with
  | none => rfl
  | some w =>
    cases w with
    | jstr s => rfl
    | jnonstr => simp [isStrOrAbsent] at h

theorem isStr_of_getStrip_ok (v : Option JVal) (s : String) (h : getStrip v = Except.ok s) :
    isStrOrAbsent v = true := by
  cases v with
  | none => rfl
  | some w =>
    cases w with
    | jstr t => rfl
    | jnonstr => simp [getStrip] at h

theorem extractFields_ok (req : Request) (hw : req.wellTyped = true) :
    extractFields req = Except.ok (strippedField req.name, strippedField req.email,
      strippedField req.phone, strippedField req.company, strippedField req.website,
      strippedField req.title, strippedField req.address, strippedField req.notes) := by
  simp only [Request.wellTyped, Bool.and_eq_true] at hw
  obtain ⟨⟨⟨⟨⟨⟨⟨h1, h2⟩, h3⟩, h4⟩, h5⟩, h6⟩, h7⟩, h8⟩ := hw
  simp only [extractFields, getStrip_of_isStr _ h1, getStrip_of_isStr _ h2,
    getStrip_of_isStr _ h3, getStrip_of_isStr _ h4, getStrip_of_isStr _ h5,
    getStrip_of_isStr _ h6, getStrip_of_isStr _ h7, getStrip_of_isStr _ h8]

theorem extractFields_error (req : Request) (h : req.wellTyped = false) :
    ∃ m, extractFields req = Except.error m := by
  cases hn : getStrip req.name with
  | error e => exact ⟨e, by simp [extractFields, hn]⟩
  | ok s1 =>
  cases he : getStrip req.email with
  | error e => exact ⟨e, by simp [extractFields, hn, he]⟩
  | ok s2 =>
  cases hp : getStrip req.phone with
  | error e => exact ⟨e, by simp [extractFields, hn, he, hp]⟩
  | ok s3 =>
  cases hc : getStrip req.company with
  | error e => exact ⟨e, by simp [extractFields, hn, he, hp, hc]⟩
  | ok s4 =>
  cases hwe : getStrip req.website with
  | error e => exact ⟨e, by simp [extractFields, hn, he, hp, hc, hwe]⟩
  | ok s5 =>
  cases hti : getStrip req.title with
  | error e => exact ⟨e, by simp [extractFields, hn, he, hp, hc, hwe, hti]⟩
  | ok s6 =>
  cases had : getStrip req.address with
  | error e => exact ⟨e, by simp [extractFields, hn, he, hp, hc, hwe, hti, had]⟩
  | ok s7 =>
  cases hno : getStrip req.notes with
  | error e => exact ⟨e, by simp [extractFields, hn, he, hp, hc, hwe, hti, had, hno]⟩
  | ok s8 =>
    exfalso
    have g1 := isStr_of_getStrip_ok _ _ hn
    have g2 := isStr_of_getStrip_ok _ _ he
    have g3 := isStr_of_getStrip_ok _ _ hp
    have g4 := isStr_of_getStrip_ok _ _ hc
    have g5 := isStr_of_getStrip_ok _ _ hwe
    have g6 := isStr_of_getStrip_ok _ _ hti
    have g7 := isStr_of_getStrip_ok _ _ had
    have g8 := isStr_of_getStrip_ok _ _ hno
    simp [Request.wellTyped, g1, g2, g3, g4, g5, g6, g7, g8] at h

theorem process_business_card_ok (req : Request) (st : Store)
    (hw : req.wellTyped = true)
    (hkey : ¬(strippedField req.name = "" ∧ strippedField req.email = "" ∧
      strippedField req.phone = "" ∧ strippedField req.company = "")) :
    process_business_card req DbFail.ok st =
      (CreateResp.success "Business card saved successfully" st.nextId
        { name := strippedField req.name, email := strippedField req.email,
          phone := strippedField req.phone, company := strippedField req.company,
          website := strippedField req.website, title := strippedField req.title,
          address := strippedField req.address, notes := strippedField req.notes },
       { rows := st.rows ++ [{ id := st.nextId, full_name := strippedField req.name,
                               email := strippedField req.email,
                               phone := strippedField req.phone,
                               company_name := strippedField req.company,
                               website := strippedField req.website,
                               notes := combineNotes (strippedField req.title)
                                 (strippedField req.address) (strippedField req.notes),
                               dt := st.clock }],
         nextId := st.nextId + 1, clock := st.clock + 1 },
       [Event.opened, Event.committed, Event.closed]) := by
  simp only [process_business_card, extractFields_ok req hw]
  rw [if_neg hkey]
  rfl

theorem process_business_card_validation (req : Request) (fail : DbFail) (st : Store)
    (hw : req.wellTyped = true)
    (hkey : strippedField req.name = "" ∧ strippedField req.email = "" ∧
      strippedField req.phone = "" ∧ strippedField req.company = "") :
    process_business_card req fail st =
      (CreateResp.validationError "At least one of name, email, phone, or company is required",
        st, []) := by
  simp only [process_business_card, extractFields_ok req hw]
  rw [if_pos hkey]

theorem rowsOrdered_tail (x : Row) (l : List Row) (h : rowsOrdered (x :: l) = true) :
    rowsOrdered l = true := by
  cases l with
  | nil => rfl
  | cons y ys =>
    simp only [rowsOrdered, Bool.and_eq_true] at h
    exact h.2

theorem rowsOrdered_head_lt (x : Row) (l : List Row) (h : rowsOrdered (x :: l) = true) :
    ∀ y ∈ l, x.id < y.id ∧ x.dt < y.dt := by
  induction l generalizing x with
  | nil => intro y hy; cases hy
  | cons z zs ih =>
    intro y hy
    have h1 : (x.id < z.id ∧ x.dt < z.dt) ∧ rowsOrdered (z :: zs) = true := by
      simpa [rowsOrdered, Bool.and_eq_true, decide_eq_true_eq] using h
    rcases List.mem_cons.mp hy with rfl | hy2
    · exact h1.1
    · have := ih z h1.2 y hy2
      exact ⟨Nat.lt_trans h1.1.1 this.1, Nat.lt_trans h1.1.2 this.2⟩

theorem rowsOrdered_append_last (l : List Row) (r : Row)
    (hord : rowsOrdered l = true)
    (hlast : ∀ x ∈ l, x.id < r.id ∧ x.dt < r.dt) :
    rowsOrdered (l ++ [r]) = true := by
  induction l with
  | nil => rfl
  | cons x xs ih =>
    cases xs with
    | nil =>
      have hx := hlast x (List.mem_cons_self x [])
      simp [rowsOrdered, hx.1, hx.2]
    | cons y ys =>
      have h1 : (x.id < y.id ∧ x.dt < y.dt) ∧ rowsOrdered (y :: ys) = true := by
        simpa [rowsOrdered, Bool.and_eq_true, decide_eq_true_eq] using hord
      have h2 : rowsOrdered ((y :: ys) ++ [r]) = true :=
        ih h1.2 (fun z hz => hlast z (List.mem_cons_of_mem x hz))
      simp only [List.cons_append, rowsOrdered, Bool.and_eq_true, decide_eq_true_eq]
      exact ⟨⟨h1.1.1, h1.1.2⟩, by simpa [List.cons_append] using h2⟩

theorem pairwise_of_rowsOrdered (l : List Row) (h : rowsOrdered l = true) :
    List.Pairwise (fun a b => a.id < b.id ∧ a.dt < b.dt) l := by
  induction l with
  | nil => exact List.Pairwise.nil
  | cons x xs ih =>
    exact List.Pairwise.cons (rowsOrdered_head_lt x xs h) (ih (rowsOrdered_tail x xs h))

theorem insertDesc_all_ge (r : Row) (l : List Row) (h : ∀ x ∈ l, r.dt ≤ x.dt) :
    insertDesc r l = l ++ [r] := by
  induction l with
  | nil => rfl
  | cons x xs ih =>
    have hx : r.dt ≤ x.dt := h x (List.mem_cons_self x xs)
    simp only [insertDesc, if_pos hx, List.cons_append, List.cons.injEq, true_and]
    exact ih fun y hy => h y (List.mem_cons_of_mem x hy)

theorem sortByDtDesc_of_ordered (l : List Row) (h : rowsOrdered l = true) :
    sortByDtDesc l = l.reverse := by
  induction l with
  | nil => rfl
  | cons x xs ih =>
    have ht := rowsOrdered_tail x xs h
    have hlt := rowsOrdered_head_lt x xs h
    rw [sortByDtDesc, ih ht, insertDesc_all_ge]
    · simp
    · intro y hy
      exact Nat.le_of_lt (hlt y (List.mem_reverse.mp hy)).2

theorem find?_append_singleton (l : List Row) (r : Row) (p : Row → Bool)
    (hl : ∀ x ∈ l, p x = false) (hr : p r = true) :
    List.find? p (l ++ [r]) = some r := by
  induction l with
  | nil => simp [List.find?, hr]
  | cons x xs ih =>
    have hx : p x = false := hl x (List.mem_cons_self x xs)
    rw [List.cons_append, List.find?_cons_of_neg _ (by simp [hx])]
    exact ih fun y hy => hl y (List.mem_cons_of_mem x hy)

theorem row_unique_id (l : List Row)
    (hp : List.Pairwise (fun a b => a.id < b.id ∧ a.dt < b.dt) l)
    (r1 r2 : Row) (h1 : r1 ∈ l) (h2 : r2 ∈ l) (h : r1.id = r2.id) : r1 = r2 := by
  induction l with
  | nil => cases h1
  | cons x xs ih =>
    have hx := List.pairwise_cons.mp hp
    rcases List.mem_cons.mp h1 with rfl | h1x
    · rcases List.mem_cons.mp h2 with rfl | h2x
      · rfl
      · exact absurd h (Nat.ne_of_lt (hx.1 r2 h2x).1)
    · rcases List.mem_cons.mp h2 with rfl | h2x
      · exact absurd h.symm (Nat.ne_of_lt (hx.1 r1 h1x).1)
      · exact ih hx.2 h1x h2x

/-- A request whose only present field is a non-blank name. -/
def reqNameOnly : Request :=
  { name := some (JVal.jstr "Jane Roe"), email := none, phone := none, company := none,
    website := none, title := none, address := none, notes := none }

/-- A store holding two rows created in sequence (ids 1 and 2, dt 0 and 1). -/
def store2 : Store :=
  { rows := [{ id := 1, full_name := "John Doe", email := "john@techcorp.com",
               phone := "5551234567", company_name := "Tech Corp", website := "techcorp.com",
               notes := "", dt := 0 },
             { id := 2, full_name := "Jane Roe", email := "", phone := "",
               company_name := "", website := "", notes := "", dt := 1 }],
    nextId := 3, clock := 2 }

/-- C1: a create request whose name, email, phone and company are all empty after
trimming is rejected with the exact 400 validation payload and leaves the
stored table unchanged, whatever the state of the store client. -/
theorem C1_empty_key_fields_rejected (req : Request) (fail : DbFail) (st : Store)
    (hw : req.wellTyped = true)
    (hn : strippedField req.name = "") (he : strippedField req.email = "")
    (hp : strippedField req.phone = "") (hc : strippedField req.company = "") :
    (process_business_card req fail st).1 =
      CreateResp.validationError "At least one of name, email, phone, or company is required" ∧
    (process_business_card req fail st).2.1 = st ∧
    CreateResp.statusCode (process_business_card req fail st).1 = 400 := by
  rw [process_business_card_validation req fail st hw ⟨hn, he, hp, hc⟩]
  exact ⟨rfl, rfl, rfl⟩

/-- Witness for C1 at the empty request and the empty store. -/
theorem C1_witness :
    reqEmpty.wellTyped = true ∧
    ((process_business_card reqEmpty DbFail.ok store0).1 =
      CreateResp.validationError "At least one of name, email, phone, or company is required" ∧
    (process_business_card reqEmpty DbFail.ok store0).2.1 = store0 ∧
    CreateResp.statusCode (process_business_card reqEmpty DbFail.ok store0).1 = 400) :=
  ⟨by decide, C1_empty_key_fields_rejected reqEmpty DbFail.ok store0 (by decide) rfl rfl rfl rfl⟩

/-- C4: a successful create responds 200 with the fixed message, the new id and a
data object echoing the eight trimmed input fields, its notes key being the raw
trimmed notes sub-field rather than the combined stored value. -/
theorem C4_success_response_echo (req : Request) (st : Store)
    (hw : req.wellTyped = true)
    (hkey : ¬(strippedField req.name = "" ∧ strippedField req.email = "" ∧
      strippedField req.phone = "" ∧ strippedField req.company = "")) :
    (process_business_card req DbFail.ok st).1 =
      CreateResp.success "Business card saved successfully" st.nextId
        { name := strippedField req.name, email := strippedField req.email,
          phone := strippedField req.phone, company := strippedField req.company,
          website := strippedField req.website, title := strippedField req.title,
          address := strippedField req.address, notes := strippedField req.notes } ∧
    CreateResp.statusCode (process_business_card req DbFail.ok st).1 = 200 := by
  rw [process_business_card_ok req st hw hkey]
  exact ⟨rfl, rfl⟩

/-- Witness for C4 at the specification scenario request: the echoed data.notes
is the raw sub-field, while the stored notes column is the combined value. -/
theorem C4_witness :
    reqJohn.wellTyped = true ∧
    ((process_business_card reqJohn DbFail.ok store0).1 =
      CreateResp.success "Business card saved successfully" 1
        { name := "John Doe", email := "john@techcorp.com", phone := "5551234567",
          company := "Tech Corp", website := "techcorp.com", title := "Software Engineer",
          address := "123 Main St, City, State", notes := "Met at tech conference 2024" } ∧
    CreateResp.statusCode (process_business_card reqJohn DbFail.ok store0).1 = 200) :=
  ⟨by decide, C4_success_response_echo reqJohn store0 (by decide) (by decide)⟩

/-- C8: the get-by-id handler never changes the store, and two consecutive
evaluations with the same id over the unchanged store return the same content. -/
theorem C8_get_card_readonly_idempotent (card_id : Nat) (fail : DbFail) (st : Store) :
    (get_card card_id fail st).2.1 = st ∧
    (get_card card_id fail ((get_card card_id fail st).2.1)).1 =
      (get_card card_id fail st).1 := by
  have hro : (get_card card_id fail st).2.1 = st := by
    cases fail with
    | ok =>
      unfold get_card
      cases List.find? (fun r => r.id == card_id) st.rows <;> rfl
    | connectFail m => rfl
    | execFail m => rfl
    | commitFail m =>
      unfold get_card
      cases List.find? (fun r => r.id == card_id) st.rows <;> rfl
  exact ⟨hro, by rw [hro]⟩

/-- C9: a create request binding one of the eight fields to a non-string value is
answered with the 500 Save failed error, not the 400 validation error, and the
store is unchanged. -/
theorem C9_nonstring_field_save_failed (req : Request) (fail : DbFail) (st : Store)
    (h : req.wellTyped = false) :
    (∃ rest, (process_business_card req fail st).1 =
      CreateResp.saveFailed ("Save failed: " ++ rest)) ∧
    (process_business_card req fail st).2.1 = st ∧
    CreateResp.statusCode (process_business_card req fail st).1 = 500 := by
  obtain ⟨m, hm⟩ := extractFields_error req h
  refine ⟨⟨m, ?_⟩, ?_, ?_⟩ <;> simp [process_business_card, hm, CreateResp.statusCode]

/-- Witness for C9 at a request whose name field is a non-string value. -/
theorem C9_witness :
    reqBadName.wellTyped = false ∧
    ((∃ rest, (process_business_card reqBadName DbFail.ok store0).1 =
      CreateResp.saveFailed ("Save failed: " ++ rest)) ∧
    (process_business_card reqBadName DbFail.ok store0).2.1 = store0 ∧
    CreateResp.statusCode (process_business_card reqBadName DbFail.ok store0).1 = 500) :=
  ⟨by decide, C9_nonstring_field_save_failed reqBadName DbFail.ok store0 (by decide)⟩

/-- C10: when title, address and the free-form notes are all empty after
trimming, the row written by a valid create supplies all six columns
explicitly and its notes column is the empty string. -/
theorem C10_empty_subfields_store_empty_notes (req : Request) (st : Store)
    (hw : req.wellTyped = true)
    (hkey : ¬(strippedField req.name = "" ∧ strippedField req.email = "" ∧
      strippedField req.phone = "" ∧ strippedField req.company = ""))
    (ht : strippedField req.title = "") (ha : strippedField req.address = "")
    (hno : strippedField req.notes = "") :
    (process_business_card req DbFail.ok st).2.1.rows =
      st.rows ++ [{ id := st.nextId, full_name := strippedField req.name,
                    email := strippedField req.email, phone := strippedField req.phone,
                    company_name := strippedField req.company,
                    website := strippedField req.website,
                    notes := "", dt := st.clock }] := by
  rw [process_business_card_ok req st hw hkey]
  simp [combineNotes, ht, ha, hno, String.intercalate]

/-- Witness for C10 at a request carrying only a name. -/
theorem C10_witness :
    reqNameOnly.wellTyped = true ∧
    (process_business_card reqNameOnly DbFail.ok store0).2.1.rows =
      store0.rows ++ [{ id := 1, full_name := "Jane Roe", email := "", phone := "",
                        company_name := "", website := "", notes := "", dt := 0 }] :=
  ⟨by decide, C10_empty_subfields_store_empty_notes reqNameOnly store0 (by decide) (by decide)
    rfl rfl rfl⟩

/-- C2: after a valid create, get-by-id with the returned id yields a row whose
full_name, email, phone, company_name and website are the trimmed inputs and
whose notes column is the newline-joined concatenation of the labelled
Title, Address and Notes lines of the non-empty sub-fields, in that order. -/
theorem C2_create_then_get_roundtrip (req : Request) (st : Store)
    (hw : req.wellTyped = true) (hwf : st.WF)
    (hkey : ¬(strippedField req.name = "" ∧ strippedField req.email = "" ∧
      strippedField req.phone = "" ∧ strippedField req.company = "")) :
    ∃ id d,
      (process_business_card req DbFail.ok st).1 =
        CreateResp.success "Business card saved successfully" id d ∧
      (get_card id DbFail.ok (process_business_card req DbFail.ok st).2.1).1 =
        GetResp.found
          { id := id, full_name := strippedField req.name, email := strippedField req.email,
            phone := strippedField req.phone, company_name := strippedField req.company,
            website := strippedField req.website,
            notes := combineNotes (strippedField req.title) (strippedField req.address)
              (strippedField req.notes),
            dt := st.clock } := by
  refine ⟨st.nextId,
    { name := strippedField req.name, email := strippedField req.email,
      phone := strippedField req.phone, company := strippedField req.company,
      website := strippedField req.website, title := strippedField req.title,
      address := strippedField req.address, notes := strippedField req.notes }, ?_, ?_⟩
  · rw [process_business_card_ok req st hw hkey]
  · rw [process_business_card_ok req st hw hkey]
    simp only [get_card]
    rw [find?_append_singleton]
    · intro x hx
      have hlt : x.id < st.nextId := (hwf.2 x hx).1
      simp [Nat.ne_of_lt hlt]
    · simp

/-- Witness for C2 at the scenario request over a one-row store. -/
theorem C2_witness :
    reqJohn.wellTyped = true ∧ store1.WF ∧
    (∃ id d,
      (process_business_card reqJohn DbFail.ok store1).1 =
        CreateResp.success "Business card saved successfully" id d ∧
      (get_card id DbFail.ok (process_business_card reqJohn DbFail.ok store1).2.1).1 =
        GetResp.found
          { id := id, full_name := "John Doe", email := "john@techcorp.com",
            phone := "5551234567", company_name := "Tech Corp", website := "techcorp.com",
            notes := combineNotes "Software Engineer" "123 Main St, City, State"
              "Met at tech conference 2024",
            dt := 1 }) :=
  ⟨by decide, by decide, C2_create_then_get_roundtrip reqJohn store1 (by decide) (by decide)
    (by decide)⟩

/-- C5: a successful create returns the id the store assigns next, which is
strictly greater than the id of every row created earlier, and the store
invariant is preserved so the same holds for all later creates. -/
theorem C5_new_id_strictly_greater (req : Request) (st : Store)
    (hw : req.wellTyped = true) (hwf : st.WF)
    (hkey : ¬(strippedField req.name = "" ∧ strippedField req.email = "" ∧
      strippedField req.phone = "" ∧ strippedField req.company = "")) :
    ∃ d, (process_business_card req DbFail.ok st).1 =
        CreateResp.success "Business card saved successfully" st.nextId d ∧
      (∀ r ∈ st.rows, r.id < st.nextId) ∧
      ((process_business_card req DbFail.ok st).2.1).WF := by
  refine ⟨CreateData.mk (strippedField req.name) (strippedField req.email)
      (strippedField req.phone) (strippedField req.company) (strippedField req.website)
      (strippedField req.title) (strippedField req.address) (strippedField req.notes),
    ?_, fun r hr => (hwf.2 r hr).1, ?_⟩
  · rw [process_business_card_ok req st hw hkey]
  · rw [process_business_card_ok req st hw hkey]
    constructor
    · exact rowsOrdered_append_last st.rows _ hwf.1
        (fun x hx => ⟨(hwf.2 x hx).1, (hwf.2 x hx).2⟩)
    · intro r hr
      rcases List.mem_append.mp hr with hold | hnew
      · exact ⟨Nat.lt_trans (hwf.2 r hold).1 (Nat.lt_succ_self _),
          Nat.lt_trans (hwf.2 r hold).2 (Nat.lt_succ_self _)⟩
      · rcases List.mem_singleton.mp hnew with rfl
        exact ⟨Nat.lt_succ_self _, Nat.lt_succ_self _⟩

/-- Witness for C5 at the scenario request over a one-row store. -/
theorem C5_witness :
    reqJohn.wellTyped = true ∧ store1.WF ∧
    (∃ d, (process_business_card reqJohn DbFail.ok store1).1 =
        CreateResp.success "Business card saved successfully" store1.nextId d ∧
      (∀ r ∈ store1.rows, r.id < store1.nextId) ∧
      ((process_business_card reqJohn DbFail.ok store1).2.1).WF) :=
  ⟨by decide, by decide, C5_new_id_strictly_greater reqJohn store1 (by decide) (by decide)
    (by decide)⟩

/-- C6: the list handler returns every row of the table, most recently created
first (the reverse of insertion order), with pairwise strictly decreasing
creation timestamps, and a count equal to the number of rows returned. -/
theorem C6_list_orders_by_dt_desc (st : Store) (hwf : st.WF) :
    (get_cards DbFail.ok st).1 = ListResp.success st.rows.reverse st.rows.length ∧
    List.Pairwise (fun a b => b.dt < a.dt) st.rows.reverse := by
  constructor
  · simp only [get_cards]
    rw [sortByDtDesc_of_ordered st.rows hwf.1]
    simp
  · exact List.pairwise_reverse.mpr
      ((pairwise_of_rowsOrdered st.rows hwf.1).imp (fun h => h.2))

/-- Witness for C6 at a two-row store: the row created second is listed first. -/
theorem C6_witness :
    store2.WF ∧
    ((get_cards DbFail.ok store2).1 =
      ListResp.success store2.rows.reverse store2.rows.length ∧
    List.Pairwise (fun a b => b.dt < a.dt) store2.rows.reverse) :=
  ⟨by decide, C6_list_orders_by_dt_desc store2 (by decide)⟩

/-- C7: get-by-id returns the unique stored row with the requested id when one
exists, the exact 404 Card not found error when none matches, and a store
failure as a 500 response distinct from the 404 one. -/
theorem C7_get_card_found_notfound_failure (card_id : Nat) (st : Store) (hwf : st.WF) :
    ((∃ r ∈ st.rows, r.id = card_id) →
      ∃ r, (get_card card_id DbFail.ok st).1 = GetResp.found r ∧ r ∈ st.rows ∧
        r.id = card_id ∧ ∀ r2 ∈ st.rows, r2.id = card_id → r2 = r) ∧
    ((∀ r ∈ st.rows, r.id ≠ card_id) →
      (get_card card_id DbFail.ok st).1 = GetResp.notFound "Card not found" ∧
      GetResp.statusCode (get_card card_id DbFail.ok st).1 = 404) ∧
    ∀ m, GetResp.statusCode (get_card card_id (DbFail.connectFail m) st).1 = 500 ∧
      (get_card card_id (DbFail.connectFail m) st).1 ≠ GetResp.notFound "Card not found" := by
  refine ⟨?_, ?_, ?_⟩
  · rintro ⟨r, hr, hid⟩
    have hsome : (List.find? (fun x => x.id == card_id) st.rows).isSome := by
      rw [List.find?_isSome]
      exact ⟨r, hr, by simp [hid]⟩
    obtain ⟨r2, hfind⟩ := Option.isSome_iff_exists.mp hsome
    have hmem : r2 ∈ st.rows := List.mem_of_find?_eq_some hfind
    have hid2 : r2.id = card_id := by
      have := List.find?_some hfind
      simpa using this
    refine ⟨r2, ?_, hmem, hid2, ?_⟩
    · simp only [get_card, hfind]
    · intro r3 h3 hid3
      exact row_unique_id st.rows (pairwise_of_rowsOrdered st.rows hwf.1) r3 r2 h3 hmem
        (hid3.trans hid2.symm)
  · intro hnone
    have hfind : List.find? (fun x => x.id == card_id) st.rows = none := by
      rw [List.find?_eq_none]
      intro x hx
      simp [hnone x hx]
    constructor <;> simp [get_card, hfind, GetResp.statusCode]
  · intro m
    exact ⟨rfl, by simp [get_card]⟩

/-- Witness for C7 at a two-row store and id 2: the matching row is found and a
connection failure yields the 500 response distinct from the 404 one. -/
theorem C7_witness :
    store2.WF ∧
    (((∃ r ∈ store2.rows, r.id = 2) →
      ∃ r, (get_card 2 DbFail.ok store2).1 = GetResp.found r ∧ r ∈ store2.rows ∧
        r.id = 2 ∧ ∀ r2 ∈ store2.rows, r2.id = 2 → r2 = r) ∧
    ((∀ r ∈ store2.rows, r.id ≠ 2) →
      (get_card 2 DbFail.ok store2).1 = GetResp.notFound "Card not found" ∧
      GetResp.statusCode (get_card 2 DbFail.ok store2).1 = 404) ∧
    ∀ m, GetResp.statusCode (get_card 2 (DbFail.connectFail m) store2).1 = 500 ∧
      (get_card 2 (DbFail.connectFail m) store2).1 ≠ GetResp.notFound "Card not found") :=
  ⟨by decide, C7_get_card_found_notfound_failure 2 store2 (by decide)⟩

/-- C3 counterexample: when the INSERT raises (for example the server closed the
connection), the create handler returns without closing the connection it
acquired: the trace records an opened event but no closed event, so the claim
that every acquired connection is released on every exit path is false. -/
theorem C3_counterexample :
    Event.opened ∈
      (process_business_card reqJohn (DbFail.execFail "server closed the connection")
        store0).2.2 ∧
    Event.closed ∉
      (process_business_card reqJohn (DbFail.execFail "server closed the connection")
        store0).2.2 := by
  decide

/-- C3 amended: on the successful path each handler closes its connection (the
create handler commits first), and when the connection attempt itself fails no
connection is opened; but when the SQL statement or the commit raises after the
connection was acquired, the handler returns the 500 error with the opened
connection still unclosed. For the create handler either no connection was
opened (the trace is empty: the failure point was never reached because field
extraction raised or validation rejected the request) or the response is the
500 Save failed error carrying the raised message and the trace ends at the
opened event. -/
theorem C3_amended_release_behavior (req : Request) (st : Store) (cid : Nat) (m : String) :
    ((process_business_card req DbFail.ok st).2.2 = [] ∨
      (process_business_card req DbFail.ok st).2.2 =
        [Event.opened, Event.committed, Event.closed]) ∧
    (get_cards DbFail.ok st).2.2 = [Event.opened, Event.closed] ∧
    (get_card cid DbFail.ok st).2.2 = [Event.opened, Event.closed] ∧
    (process_business_card req (DbFail.connectFail m) st).2.2 = [] ∧
    (get_cards (DbFail.connectFail m) st).2.2 = [] ∧
    (get_card cid (DbFail.connectFail m) st).2.2 = [] ∧
    ((process_business_card req (DbFail.execFail m) st).2.2 = [] ∨
      ((process_business_card req (DbFail.execFail m) st).1 =
          CreateResp.saveFailed ("Save failed: " ++ m) ∧
        CreateResp.statusCode (process_business_card req (DbFail.execFail m) st).1 = 500 ∧
        (process_business_card req (DbFail.execFail m) st).2.2 = [Event.opened])) ∧
    ((process_business_card req (DbFail.commitFail m) st).2.2 = [] ∨
      ((process_business_card req (DbFail.commitFail m) st).1 =
          CreateResp.saveFailed ("Save failed: " ++ m) ∧
        CreateResp.statusCode (process_business_card req (DbFail.commitFail m) st).1 = 500 ∧
        (process_business_card req (DbFail.commitFail m) st).2.2 = [Event.opened])) ∧
    ((get_cards (DbFail.execFail m) st).1 =
        ListResp.fetchFailed ("Failed to fetch cards: " ++ m) ∧
      ListResp.statusCode (get_cards (DbFail.execFail m) st).1 = 500 ∧
      (get_cards (DbFail.execFail m) st).2.2 = [Event.opened]) ∧
    ((get_card cid (DbFail.execFail m) st).1 =
        GetResp.fetchFailed ("Failed to fetch card: " ++ m) ∧
      GetResp.statusCode (get_card cid (DbFail.execFail m) st).1 = 500 ∧
      (get_card cid (DbFail.execFail m) st).2.2 = [Event.opened]) := by
  refine ⟨?_, rfl, ?_, ?_, rfl, rfl, ?_, ?_, ⟨rfl, rfl, rfl⟩, rfl, rfl, rfl⟩
  · cases hext : extractFields req with
    | error e => left; simp [process_business_card, hext]
    | ok t =>
      obtain ⟨name, email, phone, company, website, title, address, notes⟩ := t
      by_cases hv : name = "" ∧ email = "" ∧ phone = "" ∧ company = ""
      · left
        simp only [process_business_card, hext]
        rw [if_pos hv]
      · right
        simp only [process_business_card, hext]
        rw [if_neg hv]
  · unfold get_card
    cases List.find? (fun r => r.id == cid) st.rows <;> rfl
  · cases hext : extractFields req with
    | error e => simp [process_business_card, hext]
    | ok t =>
      obtain ⟨name, email, phone, company, website, title, address, notes⟩ := t
      by_cases hv : name = "" ∧ email = "" ∧ phone = "" ∧ company = ""
      · simp only [process_business_card, hext]
        rw [if_pos hv]
      · simp only [process_business_card, hext]
        rw [if_neg hv]
  · cases hext : extractFields req with
    | error e => left; simp [process_business_card, hext]
    | ok t =>
      obtain ⟨name, email, phone, company, website, title, address, notes⟩ := t
      by_cases hv : name = "" ∧ email = "" ∧ phone = "" ∧ company = ""
      · left
        simp only [process_business_card, hext]
        rw [if_pos hv]
      · right
        simp only [process_business_card, hext]
        rw [if_neg hv]
        exact ⟨rfl, rfl, rfl⟩
  · cases hext : extractFields req with
    | error e => left; simp [process_business_card, hext]
    | ok t =>
      obtain ⟨name, email, phone, company, website, title, address, notes⟩ := t
      by_cases hv : name = "" ∧ email = "" ∧ phone = "" ∧ company = ""
      · left
        simp only [process_business_card, hext]
        rw [if_pos hv]
      · right
        simp only [process_business_card, hext]
        rw [if_neg hv]
        exact ⟨rfl, rfl, rfl⟩

end CardService
